import Mathlib

/-!
Shallow embedding of the order/status/fee/tracking core of the food-delivery
application: the order router (order creation, listing with filters, status
update, driver assignment, tracking synthesis) and the client-side checkout
logic (Haversine distance, delivery fee, order payload construction).

The HTTP router handlers are translated from the Express router source; the
backing store (`storage.*`) is not part of the provided sources, so it is
modelled from the specification as a plain CRUD store over in-memory lists.
-/

namespace Sareeer

/-! ## Client-side fee model (`Cart.tsx`) -/

/-- JS `Math.atan2(y, x)` over the reals. -/
noncomputable def atan2 (y x : ℝ) : ℝ :=
  if 0 < x then Real.arctan (y / x)
  else if x < 0 ∧ 0 ≤ y then Real.arctan (y / x) + Real.pi
  else if x < 0 ∧ y < 0 then Real.arctan (y / x) - Real.pi
  else if x = 0 ∧ 0 < y then Real.pi / 2
  else if x = 0 ∧ y < 0 then -(Real.pi / 2)
  else 0

/-- `calculateDistance` from `Cart.tsx`: Haversine great-circle distance in
kilometres with Earth radius 6371 km. -/
noncomputable def calculateDistance (lat1 lng1 lat2 lng2 : ℝ) : ℝ :=
  let R : ℝ := 6371
  let dLat := (lat2 - lat1) * Real.pi / 180
  let dLng := (lng2 - lng1) * Real.pi / 180
  let a := Real.sin (dLat / 2) * Real.sin (dLat / 2) +
    Real.cos (lat1 * Real.pi / 180) * Real.cos (lat2 * Real.pi / 180) *
    Real.sin (dLng / 2) * Real.sin (dLng / 2)
  let c := 2 * atan2 (Real.sqrt a) (Real.sqrt (1 - a))
  R * c

/-- The per-kilometre delivery rate configured in `Cart.tsx`
(`deliveryFeePerKm`). -/
def deliveryFeePerKm : ℝ := 2

/-- Fee from a distance in km, as computed in `handleLocationSelect`:
`Math.max(3, Math.round(distance * deliveryFeePerKm))`.  Mathlib's `round`
is `⌊x + 1/2⌋`, which agrees with JS `Math.round` on the reals. -/
noncomputable def feeFromDistance (d : ℝ) : ℤ :=
  max 3 (round (d * deliveryFeePerKm))

/-- The fixed restaurant latitude used by `handleLocationSelect`. -/
noncomputable def restaurantLat : ℝ := 15.3694

/-- The fixed restaurant longitude used by `handleLocationSelect`. -/
noncomputable def restaurantLng : ℝ := 44.1910

/-- The delivery fee computed by `handleLocationSelect` for a customer
coordinate. -/
noncomputable def deliveryFeeFor (lat lng : ℝ) : ℤ :=
  feeFromDistance (calculateDistance restaurantLat restaurantLng lat lng)

/-- The order payload built by `handlePlaceOrder` in `Cart.tsx` (monetary
fields kept numeric; the JS code stringifies them on the wire). -/
structure OrderPayload where
  items : String
  subtotal : ℚ
  deliveryFee : ℚ
  total : ℚ
  totalAmount : ℚ
  restaurantId : String
  status : String
  orderNumber : String
  deriving Repr, DecidableEq

/-- `handlePlaceOrder` from `Cart.tsx` (the payload-construction part): the
final total is `subtotal + calculatedDeliveryFee`, stored in both `total`
and `totalAmount`. -/
def handlePlaceOrder (itemsJson : String) (subtotal calculatedDeliveryFee : ℚ)
    (restaurantId : String) (now : ℤ) : OrderPayload :=
  let finalTotal := subtotal + calculatedDeliveryFee
  { items := itemsJson
    subtotal := subtotal
    deliveryFee := calculatedDeliveryFee
    total := finalTotal
    totalAmount := finalTotal
    restaurantId := restaurantId
    status := "pending"
    orderNumber := "ORD" ++ toString now }

/-! ## Server-side data model -/

/-- An order record as persisted by the Order Store.  `driverId` is `none`
while unassigned (SQL NULL / JS `null`); `customerId` uses `""` for absent,
matching JS falsiness of missing strings.  Timestamps are epoch
milliseconds. -/
structure Order where
  id : String
  orderNumber : String
  customerName : String
  customerPhone : String
  customerEmail : String
  deliveryAddress : String
  customerId : String
  restaurantId : String
  items : String
  subtotal : String
  deliveryFee : String
  total : String
  totalAmount : String
  paymentMethod : String
  notes : String
  status : String
  driverId : Option String
  createdAt : ℤ
  updatedAt : ℤ
  deriving Repr, DecidableEq, Inhabited

/-- A driver record. -/
structure Driver where
  id : String
  name : String
  phone : String
  isAvailable : Bool
  currentLocation : String
  deriving Repr, DecidableEq, Inhabited

/-- A notification record created as a side effect of order lifecycle
events. -/
structure Notification where
  type : String
  title : String
  message : String
  recipientType : String
  recipientId : Option String
  orderId : String
  isRead : Bool
  deriving Repr, DecidableEq, Inhabited

/-- The shared persisted state: the Order Store plus driver and
notification tables. -/
structure Store where
  orders : List Order
  drivers : List Driver
  notifications : List Notification
  deriving Repr, DecidableEq, Inhabited

/-- JS truthiness of a nullable string (`null` and `""` are falsy). -/
def jsTruthy : Option String → Bool
  | none => false
  | some s => s ≠ ""

/-- A partial order update, one `Option` per updatable field (`none` means
the field is absent from the update object). -/
structure OrderUpdate where
  driverId : Option (Option String) := none
  status : Option String := none
  updatedAt : Option ℤ := none
  deriving Repr, DecidableEq

/-- Field-wise merge of a partial update into an order record. -/
def Order.applyUpdate (o : Order) (u : OrderUpdate) : Order :=
  { o with
    driverId := u.driverId.getD o.driverId
    status := u.status.getD o.status
    updatedAt := u.updatedAt.getD o.updatedAt }

/-- A partial driver update. -/
structure DriverUpdate where
  isAvailable : Option Bool := none
  deriving Repr, DecidableEq

/-- Field-wise merge of a partial update into a driver record. -/
def Driver.applyUpdate (d : Driver) (u : DriverUpdate) : Driver :=
  { d with isAvailable := u.isAvailable.getD d.isAvailable }

/-- Modelled from the spec: `storage.getOrder` — the Order Store CRUD
lookup by id (the storage implementation is not among the provided
sources). -/
def Store.getOrder (st : Store) (id : String) : Option Order :=
  st.orders.find? (fun o => o.id == id)

/-- Modelled from the spec: `storage.getDriver` — driver lookup by id. -/
def Store.getDriver (st : Store) (id : String) : Option Driver :=
  st.drivers.find? (fun d => d.id == id)

/-- Modelled from the spec: `storage.updateOrder` — merge the update into
the record with the given id, returning the updated record, or `none`
when no such order exists. -/
def Store.updateOrder (st : Store) (id : String) (u : OrderUpdate) :
    Option Order × Store :=
  match st.orders.find? (fun o => o.id == id) with
  | none => (none, st)
  | some o =>
    let o' := o.applyUpdate u
    (some o', { st with orders := st.orders.map fun x => if x.id == id then o' else x })

/-- Modelled from the spec: `storage.updateDriver`. -/
def Store.updateDriver (st : Store) (id : String) (u : DriverUpdate) :
    Option Driver × Store :=
  match st.drivers.find? (fun d => d.id == id) with
  | none => (none, st)
  | some d =>
    let d' := d.applyUpdate u
    (some d', { st with drivers := st.drivers.map fun x => if x.id == id then d' else x })

/-- Modelled from the spec: `storage.createNotification`, wrapped in the
router's `try/catch`: `ok = true` means the insert succeeds, `ok = false`
means it throws and the catch swallows the failure, leaving the store
unchanged. -/
def Store.createNotification (st : Store) (ok : Bool) (n : Notification) : Store :=
  if ok then { st with notifications := st.notifications ++ [n] } else st

/-! ## Order router handlers (`router.post "/"`, `router.get "/"`,
`router.put "/:id"`, `router.get "/:id/track"`,
`router.put "/:id/assign-driver"`) -/

/-- The request body of `POST /api/orders` (missing JSON fields model as
`""`, which is falsy in JS exactly like `undefined`). -/
structure CreateReq where
  customerName : String := ""
  customerPhone : String := ""
  customerEmail : String := ""
  deliveryAddress : String := ""
  customerId : String := ""
  restaurantId : String := ""
  items : String := ""
  subtotal : String := ""
  deliveryFee : String := ""
  total : String := ""
  totalAmount : String := ""
  paymentMethod : String := ""
  notes : String := ""
  deriving Repr, DecidableEq

/-- Response of the order-creation handler. -/
inductive CreateResp where
  | badRequest (msg : String)
  | created (order : Order) (orderNumber : String)
  deriving Repr, DecidableEq

/-- Whether a creation response is the 400 validation failure. -/
def CreateResp.isBadRequest : CreateResp → Bool
  | .badRequest _ => true
  | .created _ _ => false

/-- `router.post "/"`: validate that customer name, phone and delivery
address are present; generate an order number
`ORD${Date.now()}${Math.floor(Math.random()*1000)}`; persist with status
`"pending"`; then best-effort emit an admin notification.  `now` is
`Date.now()`, `rand` the random draw, `newId` the store-generated id,
`notifOk` whether the notification insert succeeds. -/
def createOrderHandler (req : CreateReq) (newId : String) (now : ℤ) (rand : ℕ)
    (notifOk : Bool) (st : Store) : CreateResp × Store :=
  if req.customerName = "" ∨ req.customerPhone = "" ∨ req.deliveryAddress = "" then
    (.badRequest "البيانات المطلوبة ناقصة", st)
  else
    let orderNumber := "ORD" ++ toString now ++ toString (rand % 1000)
    let newOrder : Order :=
      { id := newId
        orderNumber := orderNumber
        customerName := req.customerName
        customerPhone := req.customerPhone
        customerEmail := req.customerEmail
        deliveryAddress := req.deliveryAddress
        customerId := req.customerId
        restaurantId := req.restaurantId
        items := req.items
        subtotal := req.subtotal
        deliveryFee := req.deliveryFee
        total := req.total
        totalAmount := req.totalAmount
        paymentMethod := req.paymentMethod
        notes := req.notes
        status := "pending"
        driverId := none
        createdAt := now
        updatedAt := now }
    let st1 : Store := { st with orders := st.orders ++ [newOrder] }
    let st2 := st1.createNotification notifOk
      { type := "new_order"
        title := "طلب جديد"
        message := "طلب جديد من " ++ req.customerName ++ " - " ++ orderNumber
        recipientType := "admin"
        recipientId := none
        orderId := newOrder.id
        isRead := false }
    (.created newOrder (if newOrder.orderNumber = "" then newOrder.id else newOrder.orderNumber), st2)

/-- Query-string filters of `GET /api/orders` (`""` models an absent
parameter, which is falsy in JS exactly like `undefined`). -/
structure Query where
  status : String := ""
  driverId : String := ""
  restaurantId : String := ""
  customerId : String := ""
  deriving Repr, DecidableEq

/-- The sequential filter chain of `router.get "/"`: each provided filter
narrows the list in turn. -/
def applyFilters (q : Query) (orders : List Order) : List Order :=
  let o1 := if q.status ≠ "" ∧ q.status ≠ "all"
    then orders.filter (fun o => o.status == q.status) else orders
  let o2 := if q.driverId ≠ ""
    then o1.filter (fun o => o.driverId == some q.driverId) else o1
  let o3 := if q.restaurantId ≠ ""
    then o2.filter (fun o => o.restaurantId == q.restaurantId) else o2
  if q.customerId ≠ ""
    then o3.filter (fun o => o.customerId == q.customerId) else o3

/-- `router.get "/"`: filter, then sort by creation time descending
(`orders.sort((a, b) => b.createdAt - a.createdAt)`). -/
def listOrdersHandler (q : Query) (st : Store) : List Order :=
  (applyFilters q st.orders).mergeSort (fun a b => b.createdAt ≤ a.createdAt)

/-- Spec-side filter predicate: an order satisfies every provided filter
(logical AND); `status=all` and absent parameters filter nothing. -/
def matchesQuery (q : Query) (o : Order) : Prop :=
  (q.status ≠ "" → q.status ≠ "all" → o.status = q.status) ∧
  (q.driverId ≠ "" → o.driverId = some q.driverId) ∧
  (q.restaurantId ≠ "" → o.restaurantId = q.restaurantId) ∧
  (q.customerId ≠ "" → o.customerId = q.customerId)

instance (q : Query) (o : Order) : Decidable (matchesQuery q o) := by
  unfold matchesQuery; infer_instance

/-- The fixed status → customer-message table of `router.put "/:id"`. -/
def statusMessages (s : String) : Option String :=
  if s = "confirmed" then some "تم تأكيد طلبك"
  else if s = "preparing" then some "جاري تحضير طلبك"
  else if s = "ready" then some "طلبك جاهز للاستلام"
  else if s = "picked_up" then some "تم استلام طلبك من المطعم"
  else if s = "on_way" then some "طلبك في الطريق إليك"
  else if s = "delivered" then some "تم تسليم طلبك بنجاح"
  else if s = "cancelled" then some "تم إلغاء طلبك"
  else none

/-- Response of the order-update handler. -/
inductive UpdateResp where
  | notFound (msg : String)
  | ok (order : Order)
  deriving Repr, DecidableEq

/-- `router.put "/:id"`: merge the update body plus a fresh `updatedAt`
into the order; 404 when the order does not exist; if the body carries a
(truthy) status, best-effort emit a customer notification whose message
comes from `statusMessages` with a generic fallback. -/
def updateOrderHandler (id : String) (body : OrderUpdate) (now : ℤ)
    (notifOk : Bool) (st : Store) : UpdateResp × Store :=
  let r := st.updateOrder id { body with updatedAt := some now }
  match r.1 with
  | none => (.notFound "الطلب غير موجود", r.2)
  | some updatedOrder =>
    match body.status with
    | some s =>
      if s ≠ "" then
        let message := (statusMessages s).getD "تم تحديث حالة طلبك"
        let st2 := r.2.createNotification notifOk
          { type := "order_update"
            title := "تحديث الطلب"
            message := message
            recipientType := "customer"
            recipientId := some (if updatedOrder.customerId = "" then updatedOrder.customerPhone
              else updatedOrder.customerId)
            orderId := id
            isRead := false }
        (.ok updatedOrder, st2)
      else (.ok updatedOrder, r.2)
    | none => (.ok updatedOrder, r.2)

/-- One row of the fixed tracking table of `router.get "/:id/track"`. -/
structure TrackStep where
  status : String
  message : String
  offset : ℕ
  deriving Repr, DecidableEq, Inhabited

/-- The fixed `statusSteps` table of `router.get "/:id/track"`. -/
def statusSteps : List TrackStep :=
  [ { status := "pending", message := "تم استلام الطلب", offset := 0 }
  , { status := "confirmed", message := "تم تأكيد الطلب من المطعم", offset := 5 }
  , { status := "preparing", message := "جاري تحضير الطلب", offset := 10 }
  , { status := "ready", message := "الطلب جاهز للاستلام", offset := 20 }
  , { status := "picked_up", message := "تم استلام الطلب من المطعم", offset := 25 }
  , { status := "on_way", message := "الطلب في الطريق إليك", offset := 30 }
  , { status := "delivered", message := "تم تسليم الطلب بنجاح", offset := 45 } ]

/-- A synthesized tracking entry. -/
structure TrackEntry where
  id : String
  status : String
  message : String
  timestamp : ℤ
  createdByType : String
  deriving Repr, DecidableEq, Inhabited

/-- The timeline-synthesis loop of `router.get "/:id/track"`:
`findIndex` over `statusSteps`, then one entry per index `0..current`,
with timestamp `baseTime + offset * 60000` ms. -/
def buildTracking (orderStatus : String) (baseTime : ℤ) : List TrackEntry :=
  match statusSteps.findIdx? (fun step => step.status == orderStatus) with
  | none => []
  | some currentStatusIndex =>
    (List.range (currentStatusIndex + 1)).map fun i =>
      let step := statusSteps.getD i default
      { id := toString (i + 1)
        status := step.status
        message := step.message
        timestamp := baseTime + (step.offset : ℤ) * 60000
        createdByType := if i = 0 then "system"
          else if i ≤ 2 then "restaurant" else "driver" }

/-- Response of the driver-assignment handler: an HTTP error status plus
message, or success with the updated order. -/
inductive AssignResp where
  | err (httpStatus : ℕ) (msg : String)
  | ok (order : Order)
  deriving Repr, DecidableEq

/-- Whether an assignment response is the success case. -/
def AssignResp.isOk : AssignResp → Bool
  | .ok _ => true
  | .err _ _ => false

/-- The read-only precondition phase of `router.put "/:id/assign-driver"`
(everything before the first write): missing driverId → 400; order absent
→ 404; order already assigned → 400 conflict; driver absent → 404. -/
def assignChecks (id driverId : String) (st : Store) :
    Except (ℕ × String) (Order × Driver) :=
  if driverId = "" then .error (400, "معرف السائق مطلوب")
  else match st.getOrder id with
  | none => .error (404, "الطلب غير موجود")
  | some order =>
    if jsTruthy order.driverId then .error (400, "الطلب مُعيَّن لسائق آخر بالفعل")
    else match st.getDriver driverId with
    | none => .error (404, "السائق غير موجود")
    | some driver => .ok (order, driver)

/-- The mutation phase of `router.put "/:id/assign-driver"`: set
`driverId`, force status to `"preparing"`, mark the driver unavailable,
then best-effort notify the customer naming the driver. -/
def assignCommit (id driverId : String) (order : Order) (driver : Driver)
    (now : ℤ) (notifOk : Bool) (st : Store) : AssignResp × Store :=
  let r := st.updateOrder id
    { driverId := some (some driverId), status := some "preparing", updatedAt := some now }
  match r.1 with
  | none => (.err 404 "فشل في تحديث الطلب", r.2)
  | some updatedOrder =>
    let st2 := (r.2.updateDriver driverId { isAvailable := some false }).2
    let st3 := st2.createNotification notifOk
      { type := "order_assigned"
        title := "تم تعيين سائق لطلبك"
        message := "السائق " ++ driver.name ++ " سيقوم بتوصيل طلبك"
        recipientType := "customer"
        recipientId := some (if order.customerId = "" then order.customerPhone
          else order.customerId)
        orderId := id
        isRead := false }
    (.ok updatedOrder, st3)

/-- `router.put "/:id/assign-driver"`: the checks followed by the commit
(sequentially, on the same store). -/
def assignDriverHandler (id driverId : String) (now : ℤ) (notifOk : Bool)
    (st : Store) : AssignResp × Store :=
  match assignChecks id driverId st with
  | .error e => (.err e.1 e.2, st)
  | .ok (order, driver) => assignCommit id driverId order driver now notifOk st

/-! ## Helper lemmas and concrete fixtures -/

theorem find?_replace {α : Type _} (p : α → Bool) (b : α) (hb : p b = true) :
    ∀ (l : List α) (a : α), l.find? p = some a →
      (l.map fun x => if p x then b else x).find? p = some b := by
  intro l
  induction l with
  | nil => intro a h; simp at h
  | cons x xs ih =>
    intro a h
    by_cases hx : p x = true
    · simp only [List.map_cons, if_pos hx]
      exact List.find?_cons_of_pos _ hb
    · rw [List.find?_cons_of_neg _ hx] at h
      simp only [List.map_cons, if_neg hx]
      rw [List.find?_cons_of_neg _ hx]
      exact ih a h

theorem updateOrder_found (st : Store) (id : String) (u : OrderUpdate) (o : Order)
    (ho : st.getOrder id = some o) :
    st.updateOrder id u = (some (o.applyUpdate u),
      { st with orders := st.orders.map fun x => if x.id == id then o.applyUpdate u else x }) := by
  unfold Store.getOrder at ho
  unfold Store.updateOrder
  rw [ho]

theorem getOrder_after_update (st : Store) (id : String) (u : OrderUpdate) (o : Order)
    (ho : st.getOrder id = some o) :
    Store.getOrder
      { st with orders := st.orders.map fun x => if x.id == id then o.applyUpdate u else x }
      id = some (o.applyUpdate u) := by
  unfold Store.getOrder at ho ⊢
  have hb0 := List.find?_some ho
  have hb : ((o.applyUpdate u).id == id) = true := hb0
  exact find?_replace (fun x : Order => x.id == id) (o.applyUpdate u) hb st.orders o ho

theorem updateDriver_found (st : Store) (id : String) (u : DriverUpdate) (d : Driver)
    (hd : st.getDriver id = some d) :
    st.updateDriver id u = (some (d.applyUpdate u),
      { st with drivers := st.drivers.map fun x => if x.id == id then d.applyUpdate u else x }) := by
  unfold Store.getDriver at hd
  unfold Store.updateDriver
  rw [hd]

theorem getDriver_after_update (st : Store) (id : String) (u : DriverUpdate) (d : Driver)
    (hd : st.getDriver id = some d) :
    Store.getDriver
      { st with drivers := st.drivers.map fun x => if x.id == id then d.applyUpdate u else x }
      id = some (d.applyUpdate u) := by
  unfold Store.getDriver at hd ⊢
  have hb0 := List.find?_some hd
  have hb : ((d.applyUpdate u).id == id) = true := hb0
  exact find?_replace (fun x : Driver => x.id == id) (d.applyUpdate u) hb st.drivers d hd

theorem createNotification_getOrder (st : Store) (ok : Bool) (n : Notification)
    (id : String) :
    (st.createNotification ok n).getOrder id = st.getOrder id := by
  cases ok <;> rfl

theorem createNotification_getDriver (st : Store) (ok : Bool) (n : Notification)
    (id : String) :
    (st.createNotification ok n).getDriver id = st.getDriver id := by
  cases ok <;> rfl

theorem createNotification_orders (st : Store) (ok : Bool) (n : Notification) :
    (st.createNotification ok n).orders = st.orders := by
  cases ok <;> simp [Store.createNotification]

theorem createNotification_drivers (st : Store) (ok : Bool) (n : Notification) :
    (st.createNotification ok n).drivers = st.drivers := by
  cases ok <;> simp [Store.createNotification]

/-- A sample unassigned order used to instantiate the theorems. -/
def oW : Order :=
  { id := "o1", orderNumber := "ORD1", customerName := "n", customerPhone := "p"
  , customerEmail := "", deliveryAddress := "a", customerId := "", restaurantId := "r1"
  , items := "[]", subtotal := "50", deliveryFee := "5", total := "55"
  , totalAmount := "55", paymentMethod := "cash", notes := ""
  , status := "pending", driverId := none, createdAt := 0, updatedAt := 0 }

/-- A sample order that already has an assigned driver. -/
def oA : Order := { oW with id := "o2", driverId := some "d9", createdAt := 7 }

/-- Two sample available drivers. -/
def d1W : Driver :=
  { id := "d1", name := "D1", phone := "1", isAvailable := true, currentLocation := "" }

def d2W : Driver :=
  { id := "d2", name := "D2", phone := "2", isAvailable := true, currentLocation := "" }

/-- A sample store holding the fixtures above. -/
def stW : Store := { orders := [oW, oA], drivers := [d1W, d2W], notifications := [] }

/-! ## Theorems -/

/-- C5: for every order payload produced by the checkout flow
(`handlePlaceOrder`), `total` and `totalAmount` both equal
`subtotal + deliveryFee` exactly, as computed once at creation. -/
theorem checkout_total_invariant (itemsJson : String) (subtotal fee : ℚ)
    (rid : String) (now : ℤ) :
    (handlePlaceOrder itemsJson subtotal fee rid now).total =
      (handlePlaceOrder itemsJson subtotal fee rid now).subtotal +
      (handlePlaceOrder itemsJson subtotal fee rid now).deliveryFee ∧
    (handlePlaceOrder itemsJson subtotal fee rid now).totalAmount =
      (handlePlaceOrder itemsJson subtotal fee rid now).subtotal +
      (handlePlaceOrder itemsJson subtotal fee rid now).deliveryFee :=
  ⟨rfl, rfl⟩

theorem calculateDistance_self (lat lng : ℝ) :
    calculateDistance lat lng lat lng = 0 := by
  have h01 : (0:ℝ) < 1 := one_pos
  simp [calculateDistance, atan2, sub_self, Real.sin_zero, Real.sqrt_zero,
    Real.sqrt_one, Real.arctan_zero, h01]

/-- C6: the delivery fee for a customer coordinate is
`max(3, round(distance × 2))` where the distance is the Haversine
great-circle distance from the fixed restaurant point (15.3694, 44.1910)
with Earth radius 6371 km; the distance between two identical points is 0,
the fee there is the minimum 3, and the fee at 10 km is 20. -/
theorem delivery_fee_formula :
    (∀ lat lng : ℝ, deliveryFeeFor lat lng =
      max 3 (round (calculateDistance 15.3694 44.1910 lat lng * 2))) ∧
    calculateDistance 15.3694 44.1910 15.3694 44.1910 = 0 ∧
    deliveryFeeFor 15.3694 44.1910 = 3 ∧
    feeFromDistance 10 = 20 := by
  refine ⟨fun lat lng => rfl, calculateDistance_self 15.3694 44.1910, ?_, ?_⟩
  · show feeFromDistance (calculateDistance restaurantLat restaurantLng
      restaurantLat restaurantLng) = 3
    rw [calculateDistance_self]
    simp [feeFromDistance, deliveryFeePerKm]
  · have h : ((10:ℝ) * deliveryFeePerKm) = ((20:ℤ):ℝ) := by
      simp [deliveryFeePerKm]; norm_num
    rw [feeFromDistance, h, round_intCast]
    decide

/-- C4: the synthesized tracking timeline walks the fixed table
(`pending`@0, `confirmed`@5, `preparing`@10, `ready`@20, `picked_up`@25,
`on_way`@30, `delivered`@45 minutes): when the order's status sits at
index `idx` of the table the timeline has exactly the `idx + 1` entries at
or before it, the `j`-th entry carrying the `j`-th table status and
timestamp `creation + offset` minutes; when the status is not in the
table (e.g. `"cancelled"`) the timeline is empty. -/
theorem tracking_timeline (status : String) (base : ℤ) :
    statusSteps.map (fun s => (s.status, s.offset)) =
      [("pending", 0), ("confirmed", 5), ("preparing", 10), ("ready", 20),
       ("picked_up", 25), ("on_way", 30), ("delivered", 45)] ∧
    (statusSteps.findIdx? (fun step => step.status == status) = none →
      buildTracking status base = []) ∧
    buildTracking "cancelled" base = [] ∧
    ∀ idx, statusSteps.findIdx? (fun step => step.status == status) = some idx →
      (buildTracking status base).length = idx + 1 ∧
      ∀ j, j < idx + 1 →
        (buildTracking status base).getD j default =
          { id := toString (j + 1)
            status := (statusSteps.getD j default).status
            message := (statusSteps.getD j default).message
            timestamp := base + ((statusSteps.getD j default).offset : ℤ) * 60000
            createdByType := if j = 0 then "system"
              else if j ≤ 2 then "restaurant" else "driver" } := by
  refine ⟨by decide, ?_, rfl, ?_⟩
  · intro h
    simp [buildTracking, h]
  · intro idx h
    constructor
    · simp [buildTracking, h]
    · intro j hj
      simp [buildTracking, h, List.getD_eq_getElem?_getD, List.getElem?_map,
        List.getElem?_range hj]

/-- Witness for C4 at the end-to-end scenario of the spec: a `confirmed`
order yields exactly the two entries `pending` and `confirmed` with
offsets 0 and 5 minutes. -/
theorem tracking_timeline_witness :
    (buildTracking "confirmed" 0).length = 2 ∧
    (buildTracking "confirmed" 0).getD 0 default =
      { id := "1", status := "pending", message := "تم استلام الطلب",
        timestamp := 0, createdByType := "system" } ∧
    (buildTracking "confirmed" 0).getD 1 default =
      { id := "2", status := "confirmed", message := "تم تأكيد الطلب من المطعم",
        timestamp := 300000, createdByType := "restaurant" } ∧
    buildTracking "cancelled" 0 = [] := by
  have h := tracking_timeline "confirmed" 0
  have h2 := h.2.2.2 1 (by decide)
  refine ⟨h2.1, ?_, ?_, h.2.2.1⟩
  · rw [h2.2 0 (by decide)]; decide
  · rw [h2.2 1 (by decide)]; decide

theorem mem_filter_if {α : Type _} (c : Prop) [Decidable c] (p : α → Bool)
    (l : List α) (x : α) :
    (x ∈ if c then l.filter p else l) ↔ x ∈ l ∧ (c → p x = true) := by
  by_cases hc : c <;> simp [hc, List.mem_filter]

/-- C7: the list endpoint is sound and complete for its filters — an order
is returned iff it is stored and satisfies every provided filter (logical
AND) — and the result is sorted by creation time descending. -/
theorem list_orders_spec (q : Query) (st : Store) :
    (∀ o, o ∈ listOrdersHandler q st ↔ o ∈ st.orders ∧ matchesQuery q o) ∧
    (listOrdersHandler q st).Pairwise (fun a b => b.createdAt ≤ a.createdAt) := by
  constructor
  · intro o
    rw [listOrdersHandler, List.mem_mergeSort]
    unfold applyFilters matchesQuery
    simp only [mem_filter_if, beq_iff_eq, and_imp, and_assoc]
  · have hs := @List.sorted_mergeSort Order
      (fun a b : Order => b.createdAt ≤ a.createdAt)
      (fun a b c hab hbc => by
        simp only [decide_eq_true_eq] at *
        exact le_trans hbc hab)
      (fun a b => by
        simp only [Bool.or_eq_true, decide_eq_true_eq]
        exact le_total b.createdAt a.createdAt)
      (applyFilters q st.orders)
    exact hs.imp (fun h => of_decide_eq_true h)

theorem ord_orderNumber_ne_empty (now : ℤ) (rand : ℕ) :
    ("ORD" ++ toString now ++ toString (rand % 1000) : String) ≠ "" := by
  intro h
  have hlen := congrArg String.length h
  rw [String.length_append, String.length_append] at hlen
  have h3 : ("ORD" : String).length = 3 := rfl
  have h0 : ("" : String).length = 0 := rfl
  rw [h3, h0] at hlen
  omega

/-- C8: order creation fails with the 400 validation error iff customer
name, phone, or delivery address is missing; otherwise it returns the
created order, persisted with status `"pending"` and a non-empty generated
order number `ORD<timestamp><random>`. -/
theorem create_order_spec (req : CreateReq) (newId : String) (now : ℤ)
    (rand : ℕ) (notifOk : Bool) (st : Store) :
    ((createOrderHandler req newId now rand notifOk st).1.isBadRequest = true ↔
      (req.customerName = "" ∨ req.customerPhone = "" ∨ req.deliveryAddress = "")) ∧
    (req.customerName ≠ "" → req.customerPhone ≠ "" → req.deliveryAddress ≠ "" →
      ∃ newOrder : Order,
        (createOrderHandler req newId now rand notifOk st).1 =
          .created newOrder newOrder.orderNumber ∧
        newOrder.status = "pending" ∧
        newOrder.orderNumber = "ORD" ++ toString now ++ toString (rand % 1000) ∧
        newOrder.orderNumber ≠ "" ∧
        (createOrderHandler req newId now rand notifOk st).2.orders =
          st.orders ++ [newOrder]) := by
  by_cases hv : req.customerName = "" ∨ req.customerPhone = "" ∨ req.deliveryAddress = ""
  · constructor
    · simp [createOrderHandler, hv, CreateResp.isBadRequest]
    · intro h1 h2 h3
      rcases hv with h | h | h <;> simp [h] at *
  · have hne := ord_orderNumber_ne_empty now rand
    constructor
    · simp [createOrderHandler, hv, CreateResp.isBadRequest, hne]
    · intro _ _ _
      refine ⟨{ id := newId
                orderNumber := "ORD" ++ toString now ++ toString (rand % 1000)
                customerName := req.customerName
                customerPhone := req.customerPhone
                customerEmail := req.customerEmail
                deliveryAddress := req.deliveryAddress
                customerId := req.customerId
                restaurantId := req.restaurantId
                items := req.items
                subtotal := req.subtotal
                deliveryFee := req.deliveryFee
                total := req.total
                totalAmount := req.totalAmount
                paymentMethod := req.paymentMethod
                notes := req.notes
                status := "pending"
                driverId := none
                createdAt := now
                updatedAt := now }, ?_, rfl, rfl, hne, ?_⟩
      · simp [createOrderHandler, hv, hne]
      · simp [createOrderHandler, hv, createNotification_orders]

/-- Witness for C8: a concrete valid request creates a pending order, and
a concrete request without a phone fails validation. -/
theorem create_order_spec_witness :
    (∃ newOrder : Order,
      (createOrderHandler
        { customerName := "Ali", customerPhone := "773123456",
          deliveryAddress := "Sanaa Alzubairi St" } "id1" 1000 42 true stW).1 =
        .created newOrder newOrder.orderNumber ∧
      newOrder.status = "pending" ∧
      newOrder.orderNumber = "ORD" ++ toString (1000 : ℤ) ++ toString (42 % 1000) ∧
      newOrder.orderNumber ≠ "" ∧
      (createOrderHandler
        { customerName := "Ali", customerPhone := "773123456",
          deliveryAddress := "Sanaa Alzubairi St" } "id1" 1000 42 true stW).2.orders =
        stW.orders ++ [newOrder]) ∧
    ((createOrderHandler { customerName := "Ali" } "id1" 1000 42 true stW).1.isBadRequest
      = true) :=
  ⟨(create_order_spec
      { customerName := "Ali", customerPhone := "773123456",
        deliveryAddress := "Sanaa Alzubairi St" } "id1" 1000 42 true stW).2
      (by decide) (by decide) (by decide),
   (create_order_spec { customerName := "Ali" } "id1" 1000 42 true stW).1.mpr
      (by simp)⟩

/-- C9: a status update with a value outside the status→message table is
still persisted (no enum validation), and the emitted customer
notification carries the generic fallback message. -/
theorem unknown_status_persists (id s : String) (now : ℤ) (st : Store) (o : Order)
    (ho : st.getOrder id = some o) (hs : s ≠ "") (hunk : statusMessages s = none) :
    (updateOrderHandler id { status := some s } now true st).1 =
      .ok (o.applyUpdate { status := some s, updatedAt := some now }) ∧
    (updateOrderHandler id { status := some s } now true st).2.getOrder id =
      some (o.applyUpdate { status := some s, updatedAt := some now }) ∧
    (o.applyUpdate { status := some s, updatedAt := some now }).status = s ∧
    (updateOrderHandler id { status := some s } now true st).2.notifications =
      st.notifications ++
        [{ type := "order_update"
           title := "تحديث الطلب"
           message := "تم تحديث حالة طلبك"
           recipientType := "customer"
           recipientId := some (if o.customerId = "" then o.customerPhone
             else o.customerId)
           orderId := id
           isRead := false }] := by
  have hupd := updateOrder_found st id { status := some s, updatedAt := some now } o ho
  have hget := getOrder_after_update st id { status := some s, updatedAt := some now } o ho
  refine ⟨?_, ?_, rfl, ?_⟩
  · simp [updateOrderHandler, hupd, hs]
  · simp only [updateOrderHandler, hupd, hs, ne_eq, not_false_iff, if_true]
    rw [createNotification_getOrder]
    exact hget
  · simp [updateOrderHandler, hupd, hs, hunk, Store.createNotification,
      Order.applyUpdate]

/-- Witness for C9: updating the sample order to the unknown status
`"weird"` persists it and emits the fallback-message notification. -/
theorem unknown_status_persists_witness :
    (updateOrderHandler "o1" { status := some "weird" } 5 true stW).1 =
      .ok (oW.applyUpdate { status := some "weird", updatedAt := some 5 }) ∧
    (updateOrderHandler "o1" { status := some "weird" } 5 true stW).2.getOrder "o1" =
      some (oW.applyUpdate { status := some "weird", updatedAt := some 5 }) ∧
    (oW.applyUpdate { status := some "weird", updatedAt := some 5 }).status = "weird" ∧
    (updateOrderHandler "o1" { status := some "weird" } 5 true stW).2.notifications =
      stW.notifications ++
        [{ type := "order_update"
           title := "تحديث الطلب"
           message := "تم تحديث حالة طلبك"
           recipientType := "customer"
           recipientId := some (if oW.customerId = "" then oW.customerPhone
             else oW.customerId)
           orderId := "o1"
           isRead := false }] :=
  unknown_status_persists "o1" "weird" 5 stW oW (by decide) (by decide) (by decide)

/-- C1: when the order exists with no assigned driver and the driver
exists, assignment succeeds; afterwards the order's `driverId` is the
requested driver, its status is forced to `"preparing"` regardless of the
prior status, and the driver is marked unavailable. -/
theorem assign_driver_success (id driverId : String) (now : ℤ) (notifOk : Bool)
    (st : Store) (o : Order) (d : Driver)
    (hdid : driverId ≠ "")
    (ho : st.getOrder id = some o)
    (hun : o.driverId = none)
    (hd : st.getDriver driverId = some d) :
    (assignDriverHandler id driverId now notifOk st).1 =
      .ok (o.applyUpdate
        { driverId := some (some driverId), status := some "preparing",
          updatedAt := some now }) ∧
    (o.applyUpdate
      { driverId := some (some driverId), status := some "preparing",
        updatedAt := some now }).driverId = some driverId ∧
    (o.applyUpdate
      { driverId := some (some driverId), status := some "preparing",
        updatedAt := some now }).status = "preparing" ∧
    (assignDriverHandler id driverId now notifOk st).2.getOrder id =
      some (o.applyUpdate
        { driverId := some (some driverId), status := some "preparing",
          updatedAt := some now }) ∧
    (assignDriverHandler id driverId now notifOk st).2.getDriver driverId =
      some (d.applyUpdate { isAvailable := some false }) ∧
    (d.applyUpdate { isAvailable := some false }).isAvailable = false := by
  have hchecks : assignChecks id driverId st = .ok (o, d) := by
    simp [assignChecks, hdid, ho, hun, hd, jsTruthy]
  have hupd := updateOrder_found st id
    { driverId := some (some driverId), status := some "preparing",
      updatedAt := some now } o ho
  have hgetO := getOrder_after_update st id
    { driverId := some (some driverId), status := some "preparing",
      updatedAt := some now } o ho
  have hhandler : assignDriverHandler id driverId now notifOk st =
      assignCommit id driverId o d now notifOk st := by
    simp [assignDriverHandler, hchecks]
  set o' := o.applyUpdate
    { driverId := some (some driverId), status := some "preparing",
      updatedAt := some now } with ho'
  set st1 : Store :=
    { st with orders := st.orders.map fun x => if x.id == id then o' else x }
    with hst1
  have hdrv : st1.getDriver driverId = some d := hd
  have hdupd := updateDriver_found st1 driverId { isAvailable := some false } d hdrv
  have hgetD := getDriver_after_update st1 driverId { isAvailable := some false } d hdrv
  have hcommit : assignCommit id driverId o d now notifOk st =
      (.ok o',
        Store.createNotification
          { st1 with drivers := st1.drivers.map fun x =>
              if x.id == driverId then d.applyUpdate { isAvailable := some false } else x }
          notifOk
          { type := "order_assigned"
            title := "تم تعيين سائق لطلبك"
            message := "السائق " ++ d.name ++ " سيقوم بتوصيل طلبك"
            recipientType := "customer"
            recipientId := some (if o.customerId = "" then o.customerPhone
              else o.customerId)
            orderId := id
            isRead := false }) := by
    simp [assignCommit, hupd, hdupd]
  rw [hhandler, hcommit]
  refine ⟨rfl, rfl, rfl, ?_, ?_, rfl⟩
  · rw [createNotification_getOrder]
    exact hgetO
  · rw [createNotification_getDriver]
    exact hgetD

/-- Witness for C1: assigning available driver `d1` to the unassigned
sample order `o1` succeeds and updates both records. -/
theorem assign_driver_success_witness :
    (assignDriverHandler "o1" "d1" 9 true stW).1 =
      .ok (oW.applyUpdate
        { driverId := some (some "d1"), status := some "preparing",
          updatedAt := some 9 }) ∧
    (oW.applyUpdate
      { driverId := some (some "d1"), status := some "preparing",
        updatedAt := some 9 }).driverId = some "d1" ∧
    (oW.applyUpdate
      { driverId := some (some "d1"), status := some "preparing",
        updatedAt := some 9 }).status = "preparing" ∧
    (assignDriverHandler "o1" "d1" 9 true stW).2.getOrder "o1" =
      some (oW.applyUpdate
        { driverId := some (some "d1"), status := some "preparing",
          updatedAt := some 9 }) ∧
    (assignDriverHandler "o1" "d1" 9 true stW).2.getDriver "d1" =
      some (d1W.applyUpdate { isAvailable := some false }) ∧
    (d1W.applyUpdate { isAvailable := some false }).isAvailable = false :=
  assign_driver_success "o1" "d1" 9 true stW oW d1W (by decide) (by decide)
    (by decide) (by decide)

/-- C2: the assign-driver failure preconditions fire in order — order
absent → 404 NotFound, order already assigned → 400 Conflict, driver
absent → 404 NotFound — each with a distinct error, and in every failure
case the store (orders and drivers alike) is returned unmodified. -/
theorem assign_driver_failures (id driverId : String) (now : ℤ) (notifOk : Bool)
    (st : Store) (hdid : driverId ≠ "") :
    (st.getOrder id = none →
      assignDriverHandler id driverId now notifOk st =
        (.err 404 "الطلب غير موجود", st)) ∧
    (∀ o, st.getOrder id = some o → jsTruthy o.driverId = true →
      assignDriverHandler id driverId now notifOk st =
        (.err 400 "الطلب مُعيَّن لسائق آخر بالفعل", st)) ∧
    (∀ o, st.getOrder id = some o → jsTruthy o.driverId = false →
      st.getDriver driverId = none →
      assignDriverHandler id driverId now notifOk st =
        (.err 404 "السائق غير موجود", st)) ∧
    (AssignResp.err 404 "الطلب غير موجود" ≠
        AssignResp.err 400 "الطلب مُعيَّن لسائق آخر بالفعل" ∧
      AssignResp.err 400 "الطلب مُعيَّن لسائق آخر بالفعل" ≠
        AssignResp.err 404 "السائق غير موجود" ∧
      AssignResp.err 404 "الطلب غير موجود" ≠
        AssignResp.err 404 "السائق غير موجود") := by
  refine ⟨?_, ?_, ?_, by decide, by decide, by decide⟩
  · intro h
    simp [assignDriverHandler, assignChecks, hdid, h]
  · intro o ho hassigned
    simp [assignDriverHandler, assignChecks, hdid, ho, hassigned]
  · intro o ho hfree hd
    simp [assignDriverHandler, assignChecks, hdid, ho, hfree, hd]

/-- Witness for C2: each of the three failure preconditions on concrete
stores — unknown order id, the already-assigned sample order `o2`, and an
unknown driver id — returns its distinct error and leaves the store
untouched. -/
theorem assign_driver_failures_witness :
    assignDriverHandler "nope" "d1" 9 true stW = (.err 404 "الطلب غير موجود", stW) ∧
    assignDriverHandler "o2" "d1" 9 true stW =
      (.err 400 "الطلب مُعيَّن لسائق آخر بالفعل", stW) ∧
    assignDriverHandler "o1" "d7" 9 true stW = (.err 404 "السائق غير موجود", stW) :=
  ⟨(assign_driver_failures "nope" "d1" 9 true stW (by decide)).1 (by decide),
   (assign_driver_failures "o2" "d1" 9 true stW (by decide)).2.1 oA (by decide)
     (by decide),
   (assign_driver_failures "o1" "d7" 9 true stW (by decide)).2.2.1 oW (by decide)
     (by decide) (by decide)⟩

/-- C10: for order creation, order update, and driver assignment, a
failing notification insert (`notifOk = false`, the thrown-and-caught
case) yields exactly the same response and the same persisted order and
driver state as a succeeding one; only the notifications table can
differ. -/
theorem notification_failure_nonfatal (req : CreateReq) (newId : String)
    (now : ℤ) (rand : ℕ) (uid : String) (body : OrderUpdate)
    (aid adid : String) (st : Store) :
    ((createOrderHandler req newId now rand true st).1 =
        (createOrderHandler req newId now rand false st).1 ∧
      (createOrderHandler req newId now rand true st).2.orders =
        (createOrderHandler req newId now rand false st).2.orders ∧
      (createOrderHandler req newId now rand true st).2.drivers =
        (createOrderHandler req newId now rand false st).2.drivers) ∧
    ((updateOrderHandler uid body now true st).1 =
        (updateOrderHandler uid body now false st).1 ∧
      (updateOrderHandler uid body now true st).2.orders =
        (updateOrderHandler uid body now false st).2.orders ∧
      (updateOrderHandler uid body now true st).2.drivers =
        (updateOrderHandler uid body now false st).2.drivers) ∧
    ((assignDriverHandler aid adid now true st).1 =
        (assignDriverHandler aid adid now false st).1 ∧
      (assignDriverHandler aid adid now true st).2.orders =
        (assignDriverHandler aid adid now false st).2.orders ∧
      (assignDriverHandler aid adid now true st).2.drivers =
        (assignDriverHandler aid adid now false st).2.drivers) := by
  refine ⟨?_, ?_, ?_⟩
  · by_cases hv : req.customerName = "" ∨ req.customerPhone = "" ∨
      req.deliveryAddress = ""
    · simp [createOrderHandler, hv]
    · simp [createOrderHandler, hv, createNotification_orders,
        createNotification_drivers]
  · obtain ⟨bd, bs, bu⟩ := body
    cases bs with
    | none =>
      cases h1 : (st.updateOrder uid
          { driverId := bd, status := none, updatedAt := some now }).1 with
      | none => simp [updateOrderHandler, h1]
      | some u => simp [updateOrderHandler, h1]
    | some s =>
      cases h1 : (st.updateOrder uid
          { driverId := bd, status := some s, updatedAt := some now }).1 with
      | none => simp [updateOrderHandler, h1]
      | some u =>
        by_cases hss : s = ""
        · simp [updateOrderHandler, h1, hss]
        · simp [updateOrderHandler, h1, hss, createNotification_orders,
            createNotification_drivers]
  · cases hc : assignChecks aid adid st with
    | error e => simp [assignDriverHandler, hc]
    | ok od =>
      obtain ⟨o, d⟩ := od
      cases h1 : (st.updateOrder aid
          { driverId := some (some adid), status := some "preparing",
            updatedAt := some now }).1 with
      | none => simp [assignDriverHandler, assignCommit, hc, h1]
      | some u =>
        simp [assignDriverHandler, assignCommit, hc, h1,
          createNotification_orders, createNotification_drivers]

/-- C3 (refuting the exclusivity claim on this code): the handler has no
atomic check-and-set — its precondition phase (`assignChecks`, the reads
before the first `await`ed write) and its mutation phase (`assignCommit`)
are separate store operations.  Under the interleaving in which two
requests for the same unassigned order `o1` (drivers `d1`, `d2`) both run
their checks before either commits, both pass the "not yet assigned"
check against the same state, both commits then go through, and both
requests answer success; the order ends with `driverId = "d2"`
(last-write-wins) while both drivers are left marked unavailable —
contradicting "exactly one succeeds and the other fails with
Conflict". -/
theorem assign_driver_race_both_succeed :
    (assignChecks "o1" "d1" stW).toOption = some (oW, d1W) ∧
    (assignChecks "o1" "d2" stW).toOption = some (oW, d2W) ∧
    (assignCommit "o1" "d1" oW d1W 1 true stW).1.isOk = true ∧
    (assignCommit "o1" "d2" oW d2W 2 true
      (assignCommit "o1" "d1" oW d1W 1 true stW).2).1.isOk = true ∧
    ((assignCommit "o1" "d2" oW d2W 2 true
        (assignCommit "o1" "d1" oW d1W 1 true stW).2).2.getOrder "o1").map
      Order.driverId = some (some "d2") ∧
    ((assignCommit "o1" "d2" oW d2W 2 true
        (assignCommit "o1" "d1" oW d1W 1 true stW).2).2.getDriver "d1").map
      Driver.isAvailable = some false ∧
    ((assignCommit "o1" "d2" oW d2W 2 true
        (assignCommit "o1" "d1" oW d1W 1 true stW).2).2.getDriver "d2").map
      Driver.isAvailable = some false := by
  decide

end Sareeer
